import Mathlib

/-!
Verification development for the `chirp` repository
(`custom_components/chirp/config_flow.py`).

The file shallowly embeds the provisioning configuration flow
(`ChirpConfigFlow`), the reconfiguration/options flow (`ChirpOptionsFlow`)
and the fingerprint function `generate_unique_id` (MD5 over the
concatenation of eight configuration fields).  External collaborators
(the gRPC directory client `ChirpGrpc` and the MQTT connectivity checker
`ChirpToHA`) are modelled as oracles supplied through an environment
record; a Python exception raised by a collaborator is modelled as an
`Except.error` result of the oracle.

Naming note: the Python key `CONF_MQTT_CHIRPSTACK_PREFIX` and its field
are rendered here as `mqtt_cs_pfx` (same role, shortened identifier).
-/

namespace Chirp

/-! ## MD5 (faithful executable embedding of `hashlib.md5(...).hexdigest()`) -/

/-- 2^32, the word modulus of MD5. -/
def M32 : Nat := 4294967296

/-- Left-rotation of a 32-bit word. -/
def leftrotate (x n : Nat) : Nat :=
  ((x <<< n) % M32) ||| (x >>> (32 - n))

/-- The 64 per-round shift amounts of MD5. -/
def md5S : List Nat :=
  [7, 12, 17, 22, 7, 12, 17, 22, 7, 12, 17, 22, 7, 12, 17, 22,
   5, 9, 14, 20, 5, 9, 14, 20, 5, 9, 14, 20, 5, 9, 14, 20,
   4, 11, 16, 23, 4, 11, 16, 23, 4, 11, 16, 23, 4, 11, 16, 23,
   6, 10, 15, 21, 6, 10, 15, 21, 6, 10, 15, 21, 6, 10, 15, 21]

/-- The 64 sine-derived additive constants of MD5 (RFC 1321 table T). -/
def md5K : List Nat :=
  [0xd76aa478, 0xe8c7b756, 0x242070db, 0xc1bdceee,
   0xf57c0faf, 0x4787c62a, 0xa8304613, 0xfd469501,
   0x698098d8, 0x8b44f7af, 0xffff5bb1, 0x895cd7be,
   0x6b901122, 0xfd987193, 0xa679438e, 0x49b40821,
   0xf61e2562, 0xc040b340, 0x265e5a51, 0xe9b6c7aa,
   0xd62f105d, 0x02441453, 0xd8a1e681, 0xe7d3fbc8,
   0x21e1cde6, 0xc33707d6, 0xf4d50d87, 0x455a14ed,
   0xa9e3e905, 0xfcefa3f8, 0x676f02d9, 0x8d2a4c8a,
   0xfffa3942, 0x8771f681, 0x6d9d6122, 0xfde5380c,
   0xa4beea44, 0x4bdecfa9, 0xf6bb4b60, 0xbebfbc70,
   0x289b7ec6, 0xeaa127fa, 0xd4ef3085, 0x04881d05,
   0xd9d4d039, 0xe6db99e5, 0x1fa27cf8, 0xc4ac5665,
   0xf4292244, 0x432aff97, 0xab9423a7, 0xfc93a039,
   0x655b59c3, 0x8f0ccc92, 0xffeff47d, 0x85845dd1,
   0x6fa87e4f, 0xfe2ce6e0, 0xa3014314, 0x4e0811a1,
   0xf7537e82, 0xbd3af235, 0x2ad7d2bb, 0xeb86d391]

/-- One MD5 mixing round: `m` is the 16-word message block, `i` the round
index (0..63). -/
def md5Mix (m : List Nat) (st : Nat × Nat × Nat × Nat) (i : Nat) :
    Nat × Nat × Nat × Nat :=
  let (a, b, c, d) := st
  let f :=
    if i < 16 then (b &&& c) ||| ((b ^^^ 0xffffffff) &&& d)
    else if i < 32 then (d &&& b) ||| ((d ^^^ 0xffffffff) &&& c)
    else if i < 48 then b ^^^ c ^^^ d
    else c ^^^ (b ||| (d ^^^ 0xffffffff))
  let g :=
    if i < 16 then i
    else if i < 32 then (5 * i + 1) % 16
    else if i < 48 then (3 * i + 5) % 16
    else (7 * i) % 16
  let tmp := (f + a + md5K.getD i 0 + m.getD g 0) % M32
  (d, (b + leftrotate tmp (md5S.getD i 0)) % M32, b, c)

/-- Process one 512-bit (16-word) block. -/
def md5Block (st : Nat × Nat × Nat × Nat) (m : List Nat) :
    Nat × Nat × Nat × Nat :=
  let (a0, b0, c0, d0) := st
  let (a, b, c, d) := (List.range 64).foldl (md5Mix m) st
  ((a0 + a) % M32, (b0 + b) % M32, (c0 + c) % M32, (d0 + d) % M32)

/-- Read a byte list as little-endian 32-bit words. -/
def leWords : List Nat → List Nat
  | b0 :: b1 :: b2 :: b3 :: rest =>
      (b0 + 256 * b1 + 65536 * b2 + 16777216 * b3) :: leWords rest
  | _ => []

/-- MD5 padding: append `0x80`, zero-pad to 56 mod 64, then the bit length
as 8 little-endian bytes. -/
def md5Pad (msg : List Nat) : List Nat :=
  let z := (120 - (msg.length + 1) % 64) % 64
  msg ++ 0x80 :: List.replicate z 0 ++
    (List.range 8).map (fun i => ((8 * msg.length) >>> (8 * i)) &&& 0xff)

/-- Split a byte list into 64-byte chunks. -/
def chunks64 (l : List Nat) : List (List Nat) :=
  if _h : l.length = 0 then []
  else l.take 64 :: chunks64 (l.drop 64)
termination_by l.length
decreasing_by
  simp only [List.length_drop]
  omega

/-- MD5 digest of a byte message, as the four 32-bit state words. -/
def md5Bytes (msg : List Nat) : Nat × Nat × Nat × Nat :=
  (chunks64 (md5Pad msg)).foldl (fun st chunk => md5Block st (leWords chunk))
    (0x67452301, 0xefcdab89, 0x98badcfe, 0x10325476)

/-- Lower-case hexadecimal digit. -/
def hexDigit (n : Nat) : Char :=
  if n < 10 then Char.ofNat (48 + n) else Char.ofNat (87 + n)

/-- Two-hex-character rendering of a byte. -/
def byteHex (b : Nat) : String :=
  String.mk [hexDigit (b / 16), hexDigit (b % 16)]

/-- Little-endian hexadecimal rendering of a 32-bit word (as in
`hexdigest`, which renders the state bytes in little-endian order). -/
def wordHexLE (w : Nat) : String :=
  byteHex (w &&& 0xff) ++ byteHex ((w >>> 8) &&& 0xff) ++
    byteHex ((w >>> 16) &&& 0xff) ++ byteHex ((w >>> 24) &&& 0xff)

/-- UTF-8 encoding of one character (embedding of `str.encode('utf-8')`
character-wise). -/
def utf8Bytes (c : Char) : List Nat :=
  let n := c.toNat
  if n < 0x80 then [n]
  else if n < 0x800 then
    [0xc0 ||| (n >>> 6), 0x80 ||| (n &&& 0x3f)]
  else if n < 0x10000 then
    [0xe0 ||| (n >>> 12), 0x80 ||| ((n >>> 6) &&& 0x3f), 0x80 ||| (n &&& 0x3f)]
  else
    [0xf0 ||| (n >>> 18), 0x80 ||| ((n >>> 12) &&& 0x3f),
     0x80 ||| ((n >>> 6) &&& 0x3f), 0x80 ||| (n &&& 0x3f)]

/-- UTF-8 byte sequence of a string. -/
def strBytes (s : String) : List Nat :=
  s.data.foldr (fun c acc => utf8Bytes c ++ acc) []

/-- Hexadecimal MD5 digest of a string, i.e.
`hashlib.md5(s.encode('utf-8')).hexdigest()`. -/
def md5hex (s : String) : String :=
  let (a, b, c, d) := md5Bytes (strBytes s)
  wordHexLE a ++ wordHexLE b ++ wordHexLE c ++ wordHexLE d

/-! ## Configuration data (the keys of the flow's `_input` dictionary)

`const.py` is not part of the sources; the `CONF_*` names below are the
distinct dictionary keys it declares, modelled as fields of a structure.
A key that a given flow step has not written yet corresponds to the
field's neutral default (`""` / `0` / `false`). -/

/-- The accumulated configuration dictionary (`self._input` of the config
flow / `config_entry.data` of an entry). -/
structure Configuration where
  api_server : String := ""
  api_port : Nat := 0
  api_key : String := ""
  tenant : String := ""
  application : String := ""
  application_id : String := ""
  mqtt_server : String := ""
  mqtt_port : Nat := 0
  mqtt_user : String := ""
  mqtt_pwd : String := ""
  mqtt_disc : String := ""
  mqtt_cs_pfx : String := ""
deriving DecidableEq, Repr

/-- The eight string-coerced fields hashed by `generate_unique_id`, in the
source's iteration order (`CONF_API_SERVER, CONF_API_PORT, CONF_TENANT,
CONF_APPLICATION, CONF_MQTT_SERVER, CONF_MQTT_PORT, CONF_MQTT_DISC,
CONF_MQTT_CHIRPSTACK_PREFIX`). -/
def uidFields (c : Configuration) : List String :=
  [c.api_server, toString c.api_port, c.tenant, c.application,
   c.mqtt_server, toString c.mqtt_port, c.mqtt_disc, c.mqtt_cs_pfx]

/-- The `"".join(...)` pre-image string of the fingerprint. -/
def uidString (c : Configuration) : String :=
  String.join (uidFields c)

/-- Embedding of `generate_unique_id`: MD5 hexdigest of the concatenated
string coercions of the eight fields. -/
def generate_unique_id (c : Configuration) : String :=
  md5hex (uidString c)

/-! ## Error kinds, abort reasons, defaults

Modelled from the spec: `const.py` is not under `src/`; it only declares
named string constants.  The error kinds below follow the spec's error
taxonomy (§7); their concrete string values are immaterial — only their
distinctness matters, which an inductive type captures. -/

/-- Modelled from the spec: the named error kinds of `const.py`
(`CONF_ERROR_CHIRP_CONN_FAILED`, `CONF_CHIRP_NO_TENANTS`,
`CONF_ERROR_NO_APPS`, `CONF_ERROR_MQTT_CONN_FAILED`). -/
inductive ErrorKind where
  | chirpConnFailed
  | chirpNoTenants
  | noApps
  | mqttConnFailed
deriving DecidableEq, Repr

/-- Error value for a failed directory (gRPC) connection. -/
def CONF_ERROR_CHIRP_CONN_FAILED : ErrorKind := .chirpConnFailed

/-- Error value for an empty tenant listing. -/
def CONF_CHIRP_NO_TENANTS : ErrorKind := .chirpNoTenants

/-- Error value for an empty application listing. -/
def CONF_ERROR_NO_APPS : ErrorKind := .noApps

/-- Error value for a failed MQTT (broker) connection. -/
def CONF_ERROR_MQTT_CONN_FAILED : ErrorKind := .mqttConnFailed

/-- The field names used as error-dictionary keys in the flow. -/
inductive FieldKey where
  | api_server
  | mqtt_server
deriving DecidableEq, Repr

/-- Modelled from the spec: the abort reason `CONF_CHIRP_SERVER_RESERVED`
of `const.py`, the distinct terminal "already configured" outcome (§7
`AlreadyConfigured`). -/
inductive AbortReason where
  | chirpServerReserved
deriving DecidableEq, Repr

/-- The abort reason used by `async_step_configure_mqtt`. -/
def CONF_CHIRP_SERVER_RESERVED : AbortReason := .chirpServerReserved

/-- The options dictionary persisted alongside a record
(`config_entry.options`). -/
structure OptionsData where
  start_delay : Nat := 0
  restore_age : Nat := 0
  debug_payload : Bool := false
  log_level : String := ""
  online_per_device : Nat := 0
  expire_after : Bool := false
deriving DecidableEq, Repr

/-- Modelled from the spec: the fixed option defaults assigned at commit
(`DEFAULT_OPTIONS_*` of `const.py`); the spec fixes
`debug-payload-logging=false`, `log-level=info`, `expire-after=false` and
leaves the numeric values as configuration details, so representative
numbers are used. -/
def defaultOptions : OptionsData :=
  { start_delay := 5, restore_age := 10, debug_payload := false,
    log_level := "info", online_per_device := 0, expire_after := false }

/-- Modelled from the spec: `DEFAULT_NAME` of `const.py`, the title of a
created entry; its value is immaterial to the claims. -/
def DEFAULT_NAME : String := "ChirpStack LoRaWAN"

/-- The fields submitted at the endpoint-entry step `user`. -/
structure UserInput where
  api_server : String
  api_port : Nat
  api_key : String
deriving DecidableEq, Repr

/-- Modelled from the spec: the form defaults `DEFAULT_API_*` of
`const.py`, shown when the `user` step has no prior submission. -/
def DEFAULT_USER_INPUT : UserInput :=
  { api_server := "localhost", api_port := 8080, api_key := "" }

/-- The fields submitted at the broker-configuration step
`configure_mqtt`. -/
structure MqttInput where
  mqtt_server : String
  mqtt_port : Nat
  mqtt_user : String
  mqtt_pwd : String
  mqtt_disc : String
  mqtt_cs_pfx : String
deriving DecidableEq, Repr

/-- Modelled from the spec: the form defaults `DEFAULT_MQTT_*` of
`const.py`, shown when `configure_mqtt` has no prior submission. -/
def DEFAULT_MQTT_INPUT : MqttInput :=
  { mqtt_server := "core-mosquitto", mqtt_port := 1883, mqtt_user := "",
    mqtt_pwd := "", mqtt_disc := "homeassistant", mqtt_cs_pfx := "" }

/-! ## Flow results, records, environment -/

/-- The result returned by a config-flow step (`FlowResult`): one of the
step forms (`async_show_form`, with the schema's defaults and the error
dictionary), a created entry (`async_create_entry`) or an abort
(`async_abort`). -/
inductive FlowResult where
  | formUser (defaults : UserInput) (errors : List (FieldKey × ErrorKind))
  | formSelectTenant (choices : List String)
      (errors : List (FieldKey × ErrorKind))
  | formSelectApplication (choices : List String)
      (errors : List (FieldKey × ErrorKind))
  | formConfigureMqtt (defaults : MqttInput)
      (errors : List (FieldKey × ErrorKind))
  | createEntry (title : String) (data : Configuration)
      (options : OptionsData)
  | abort (reason : AbortReason)
deriving DecidableEq, Repr

/-- A persisted configuration entry (`ConfigEntry`): unique id
(fingerprint), data dictionary and options dictionary. -/
structure Record where
  unique_id : String
  data : Configuration
  options : OptionsData
deriving DecidableEq, Repr

/-- External calls observable during a step (used to state which
collaborators a step invoked). -/
inductive ExtCall where
  | mqttConnectivity
  | reconfigConnectivity
deriving DecidableEq, Repr

/-- The external collaborators, as oracles.  `tenants` is the outcome of
constructing `ChirpGrpc` and calling `get_chirp_tenants`; `apps` is
`get_tenant_applications` for a tenant id; `mqttCheck` is the
connectivity-only `ChirpToHA` construction at `configure_mqtt`;
`reconfigCheck` is the whole `test_mqtt_connection` job of the options
flow (gRPC reconstruction from the stored data plus `ChirpToHA` on the
candidate configuration).  An `Except.error` models a raised Python
exception. -/
structure Env where
  tenants : Except String (List (String × String))
  apps : String → Except String (List (String × String))
  mqttCheck : Configuration → Except String Unit
  reconfigCheck : Configuration → Configuration → Except String Unit

/-- The mutable instance state of `ChirpConfigFlow` (`_tenants_list`,
`_apps_list`, `_input`, `_tenant_id`, `_app_id`). -/
structure FlowState where
  tenants_list : List (String × String) := []
  apps_list : List (String × String) := []
  inp : Configuration := {}
  tenant_id : String := ""
  app_id : String := ""
deriving DecidableEq, Repr

/-- Outcome of one step invocation: the flow result, the updated instance
state, the updated entry store (a created entry is appended), and the
external broker-connectivity calls made. -/
abbrev StepOut := FlowResult × FlowState × List Record × List ExtCall

/-! ## The provisioning flow steps -/

/-- Merge of a `configure_mqtt` submission into `_input`
(`self._input |= user_input`). -/
def mergeMqtt (c : Configuration) (m : MqttInput) : Configuration :=
  { c with mqtt_server := m.mqtt_server, mqtt_port := m.mqtt_port,
           mqtt_user := m.mqtt_user, mqtt_pwd := m.mqtt_pwd,
           mqtt_disc := m.mqtt_disc, mqtt_cs_pfx := m.mqtt_cs_pfx }

/-- Embedding of `async_step_configure_mqtt`.  On submission: merge the
input, compute the fingerprint, abort with `CONF_CHIRP_SERVER_RESERVED`
if an existing record carries it; otherwise attempt the MQTT
connectivity check and either create the entry with default options or
re-present the form with a `mqtt_conn_failed` error and the submitted
values as defaults. -/
def stepConfigureMqtt (env : Env) (records : List Record) (st : FlowState)
    (user_input : Option MqttInput) : StepOut :=
  match user_input with
  | none => (.formConfigureMqtt DEFAULT_MQTT_INPUT [], st, records, [])
  | some m =>
    let st' := { st with inp := mergeMqtt st.inp m }
    let uid := generate_unique_id st'.inp
    if records.any (fun r => r.unique_id == uid) then
      (.abort CONF_CHIRP_SERVER_RESERVED, st', records, [])
    else
      match env.mqttCheck st'.inp with
      | .ok _ =>
          (.createEntry DEFAULT_NAME st'.inp defaultOptions, st',
           records ++
             [{ unique_id := uid, data := st'.inp,
                options := defaultOptions }],
           [.mqttConnectivity])
      | .error _ =>
          (.formConfigureMqtt m [(.mqtt_server, CONF_ERROR_MQTT_CONN_FAILED)],
           st', records, [.mqttConnectivity])

/-- Embedding of `async_step_select_application`.  A singleton
application list is auto-selected; a submission stores the display name
into `_input`, looks up the application id (a missing key raises, i.e.
yields `Except.error`), stores it under `application_id`, and chains into
`configure_mqtt`; with no submission the selection form is shown. -/
def stepSelectApplication (env : Env) (records : List Record)
    (st : FlowState) (user_input : Option String) :
    Except String StepOut :=
  let user_input := match st.apps_list with
    | [a] => some a.1
    | _ => user_input
  match user_input with
  | some appName =>
    let inp := { st.inp with application := appName }
    match st.apps_list.lookup appName with
    | none => .error "KeyError"
    | some aid =>
        .ok (stepConfigureMqtt env records
          { st with inp := { inp with application_id := aid },
                    app_id := aid } none)
  | none =>
      .ok (.formSelectApplication (st.apps_list.map Prod.fst) [], st,
           records, [])

/-- Embedding of `async_step_select_tenant`.  A singleton tenant list is
auto-selected; a submission stores the display name into `_input`, looks
up the tenant id and calls `get_tenant_applications` — with no
surrounding `try`, so a raised exception propagates out of the step
(`Except.error`).  An empty application listing re-presents the tenant
form with a `no_apps` error; otherwise the flow chains into application
selection. -/
def stepSelectTenant (env : Env) (records : List Record) (st : FlowState)
    (user_input : Option String) : Except String StepOut :=
  let user_input := match st.tenants_list with
    | [t] => some t.1
    | _ => user_input
  match user_input with
  | some tenantName =>
    let inp := { st.inp with tenant := tenantName }
    match st.tenants_list.lookup tenantName with
    | none => .error "KeyError"
    | some tid =>
      match env.apps tid with
      | .error e => .error e
      | .ok apps =>
        let st' := { st with inp := inp, tenant_id := tid,
                             apps_list := apps }
        if apps.isEmpty then
          .ok (.formSelectTenant (st'.tenants_list.map Prod.fst)
                 [(.api_server, CONF_ERROR_NO_APPS)], st', records, [])
        else
          stepSelectApplication env records st' none
  | none =>
      .ok (.formSelectTenant (st.tenants_list.map Prod.fst) [], st,
           records, [])

/-- The replacement `self._input = user_input` performed at the `user`
step: the dictionary then holds exactly the three endpoint fields plus
`application_id = ""`. -/
def inputOfUser (u : UserInput) : Configuration :=
  { api_server := u.api_server, api_port := u.api_port,
    api_key := u.api_key, application_id := "" }

/-- Embedding of `async_step_user`.  The whole submission body is wrapped
in `try/except`: a failure of the tenant listing — or any exception
escaping the nested `async_step_select_tenant` call — is converted to a
`chirp_conn_failed` error on the `api_server` field, re-presenting the
form with the submitted values as defaults.  An empty tenant listing
gives a `chirp_no_tenants` error.  Otherwise the flow advances into
tenant selection. -/
def stepUser (env : Env) (records : List Record) (st : FlowState)
    (user_input : Option UserInput) : StepOut :=
  match user_input with
  | none => (.formUser DEFAULT_USER_INPUT [], st, records, [])
  | some u =>
    match env.tenants with
    | .error _ =>
        (.formUser u [(.api_server, CONF_ERROR_CHIRP_CONN_FAILED)], st,
         records, [])
    | .ok ts =>
      let st1 := { st with tenants_list := ts }
      if ts.isEmpty then
        (.formUser u [(.api_server, CONF_CHIRP_NO_TENANTS)], st1, records, [])
      else
        let st2 := { st1 with inp := inputOfUser u }
        match stepSelectTenant env records st2 none with
        | .ok out => out
        | .error _ =>
            (.formUser u [(.api_server, CONF_ERROR_CHIRP_CONN_FAILED)], st2,
             records, [])

/-! ## The reconfiguration (options) flow -/

/-- A submission of the options flow's single `init` step: the six broker
fields plus the six option fields. -/
structure ReconfigInput where
  mqtt_server : String
  mqtt_port : Nat
  mqtt_user : String
  mqtt_pwd : String
  mqtt_disc : String
  mqtt_cs_pfx : String
  start_delay : Nat
  restore_age : Nat
  debug_payload : Bool
  log_level : String
  online_per_device : Nat
  expire_after : Bool
deriving DecidableEq, Repr

/-- The `mqtt_changed` disjunction of `async_step_init`: true when at
least one of the six broker fields of the submission differs from the
stored entry data. -/
def mqttChanged (u : ReconfigInput) (d : Configuration) : Bool :=
  (u.mqtt_server != d.mqtt_server) || (u.mqtt_port != d.mqtt_port) ||
  (u.mqtt_user != d.mqtt_user) || (u.mqtt_pwd != d.mqtt_pwd) ||
  (u.mqtt_disc != d.mqtt_disc) || (u.mqtt_cs_pfx != d.mqtt_cs_pfx)

/-- The candidate/new data dictionary built by `async_step_init`
(`{**self.config_entry.data}` with the six broker fields replaced). -/
def mergeReconfig (d : Configuration) (u : ReconfigInput) : Configuration :=
  { d with mqtt_server := u.mqtt_server, mqtt_port := u.mqtt_port,
           mqtt_user := u.mqtt_user, mqtt_pwd := u.mqtt_pwd,
           mqtt_disc := u.mqtt_disc, mqtt_cs_pfx := u.mqtt_cs_pfx }

/-- The options dictionary saved by `async_step_init`. -/
def optionsOf (u : ReconfigInput) : OptionsData :=
  { start_delay := u.start_delay, restore_age := u.restore_age,
    debug_payload := u.debug_payload, log_level := u.log_level,
    online_per_device := u.online_per_device,
    expire_after := u.expire_after }

/-- Result of the options flow's step: the re-presented form or a created
options entry. -/
inductive OptionsFlowResult where
  | form (errors : List (FieldKey × ErrorKind))
  | createEntry (title : String) (data : OptionsData)
deriving DecidableEq, Repr

/-- Embedding of `ChirpOptionsFlow.async_step_init`.  On submission: if
any broker field changed, run the connectivity test; on success update
the entry's data and then save the options; on failure re-present with a
`mqtt_conn_failed` error and persist nothing.  If no broker field
changed, skip the test and save the options. -/
def stepOptionsInit (env : Env) (entry : Record)
    (user_input : Option ReconfigInput) :
    OptionsFlowResult × Record × List ExtCall :=
  match user_input with
  | none => (.form [], entry, [])
  | some u =>
    if mqttChanged u entry.data then
      match env.reconfigCheck entry.data (mergeReconfig entry.data u) with
      | .ok _ =>
          (.createEntry "" (optionsOf u),
           { entry with data := mergeReconfig entry.data u,
                        options := optionsOf u },
           [.reconfigConnectivity])
      | .error _ =>
          (.form [(.mqtt_server, CONF_ERROR_MQTT_CONN_FAILED)], entry,
           [.reconfigConnectivity])
    else
      (.createEntry "" (optionsOf u), { entry with options := optionsOf u },
       [])

/-! ## Helper lemmas on string concatenation -/

/-- Data of a concatenation is the concatenation of the data. -/
theorem string_data_app (a b : String) : (a ++ b).data = a.data ++ b.data := by
  cases a
  cases b
  rfl

/-- Strings with equal data are equal. -/
theorem string_eq_of_data (a b : String) (h : a.data = b.data) : a = b := by
  cases a
  cases b
  exact congrArg String.mk h

/-- String concatenation is associative. -/
theorem string_app_assoc (a b c : String) : a ++ b ++ c = a ++ (b ++ c) := by
  apply string_eq_of_data
  simp [string_data_app]

/-- The empty string is a left unit for concatenation. -/
theorem string_empty_app (s : String) : "" ++ s = s := by
  apply string_eq_of_data
  simp [string_data_app]

/-- The fingerprint pre-image is the separator-free concatenation of the
eight string-coerced fields in fixed field order. -/
theorem uidString_eq (c : Configuration) :
    uidString c =
      c.api_server ++ (toString c.api_port ++ (c.tenant ++ (c.application ++
        (c.mqtt_server ++ (toString c.mqtt_port ++
          (c.mqtt_disc ++ c.mqtt_cs_pfx)))))) := by
  simp [uidString, uidFields, String.join, List.foldl, string_empty_app,
    string_app_assoc]

/-! ## Concrete fixtures used by witnesses and counterexamples -/

/-- An environment whose collaborators all succeed, with one tenant
`"Acme" -> "t1"` and one application `"Sensors" -> "a1"`. -/
def envA : Env :=
  { tenants := .ok [("Acme", "t1")],
    apps := fun _ => .ok [("Sensors", "a1")],
    mqttCheck := fun _ => .ok (),
    reconfigCheck := fun _ _ => .ok () }

/-- A concrete endpoint-entry submission. -/
def uA : UserInput := { api_server := "srv", api_port := 1234, api_key := "k" }

/-- A concrete broker-configuration submission. -/
def mA : MqttInput :=
  { mqtt_server := "mq", mqtt_port := 1883, mqtt_user := "u",
    mqtt_pwd := "p", mqtt_disc := "homeassistant", mqtt_cs_pfx := "cs" }

/-- The flow state reached by submitting `uA` at the `user` step in
`envA` (both selection steps auto-advance). -/
def stA : FlowState := (stepUser envA [] {} (some uA)).2.1

/-- The data dictionary of the entry committed from `stA` and `mA`. -/
def dataA : Configuration :=
  { api_server := "srv", api_port := 1234, api_key := "k",
    tenant := "Acme", application := "Sensors", application_id := "a1",
    mqtt_server := "mq", mqtt_port := 1883, mqtt_user := "u",
    mqtt_pwd := "p", mqtt_disc := "homeassistant", mqtt_cs_pfx := "cs" }

/-- Two configurations that differ in the directory host and port but
have identical field concatenations (`"a1" ++ "1" = "a" ++ "11"`). -/
def cfg5a : Configuration := { api_server := "a1", api_port := 1 }

/-- Counterpart of `cfg5a`; see there. -/
def cfg5b : Configuration := { api_server := "a", api_port := 11 }

/-! ## C4 — the fingerprint generator -/

/-- C4: `generate_unique_id` is a pure deterministic function: it returns
the hexadecimal MD5 digest of the string coercions of the eight fields
concatenated in fixed field order with no separators, so any two
configurations that agree on all eight fields receive the identical
digest. -/
theorem confirmed_c4_fingerprint_deterministic
    (c1 c2 : Configuration)
    (h1 : c1.api_server = c2.api_server) (h2 : c1.api_port = c2.api_port)
    (h3 : c1.tenant = c2.tenant) (h4 : c1.application = c2.application)
    (h5 : c1.mqtt_server = c2.mqtt_server)
    (h6 : c1.mqtt_port = c2.mqtt_port) (h7 : c1.mqtt_disc = c2.mqtt_disc)
    (h8 : c1.mqtt_cs_pfx = c2.mqtt_cs_pfx) :
    generate_unique_id c1 =
      md5hex (c1.api_server ++ (toString c1.api_port ++ (c1.tenant ++
        (c1.application ++ (c1.mqtt_server ++ (toString c1.mqtt_port ++
          (c1.mqtt_disc ++ c1.mqtt_cs_pfx)))))))
    ∧ generate_unique_id c1 = generate_unique_id c2 := by
  constructor
  · rw [generate_unique_id, uidString_eq]
  · have h : uidFields c1 = uidFields c2 := by
      simp only [uidFields, h1, h2, h3, h4, h5, h6, h7, h8]
    exact congrArg (fun l => md5hex (String.join l)) h

/-- Witness for C4: two concrete configurations agreeing on the eight
hashed fields (but differing in the MQTT username) receive the identical
digest, equal to the digest of the concatenation. -/
theorem confirmed_c4_witness :
    generate_unique_id dataA =
      md5hex (dataA.api_server ++ (toString dataA.api_port ++ (dataA.tenant ++
        (dataA.application ++ (dataA.mqtt_server ++
          (toString dataA.mqtt_port ++
            (dataA.mqtt_disc ++ dataA.mqtt_cs_pfx)))))))
    ∧ generate_unique_id dataA =
        generate_unique_id { dataA with mqtt_user := "other" } :=
  confirmed_c4_fingerprint_deterministic dataA
    { dataA with mqtt_user := "other" } rfl rfl rfl rfl rfl rfl rfl rfl

/-! ## C5 — injectivity of the fingerprint in each field (fails) -/

/-- C5 counterexample: `cfg5a` and `cfg5b` differ in the directory host
(and port), yet their separator-free concatenations coincide
(`"a1" ++ "1" = "a" ++ "11" = "a11"`), so `generate_unique_id` gives
them the identical digest. -/
theorem corrected_c5_cex :
    cfg5a ≠ cfg5b ∧ cfg5a.api_server ≠ cfg5b.api_server ∧
      generate_unique_id cfg5a = generate_unique_id cfg5b := by
  refine ⟨by decide, by decide, ?_⟩
  have h : uidString cfg5a = uidString cfg5b := by decide
  exact congrArg md5hex h

/-- C5 amended: the digest depends only on the separator-free
concatenation of the eight string-coerced fields — any two tuples with
equal concatenation receive the identical digest — so tuples differing
in at least one field are not guaranteed distinct digests. -/
theorem corrected_c5_amended (c1 c2 : Configuration)
    (h : uidString c1 = uidString c2) :
    generate_unique_id c1 = generate_unique_id c2 :=
  congrArg md5hex h

/-- Witness for the amended C5 at the concrete colliding pair. -/
theorem corrected_c5_amended_witness :
    generate_unique_id cfg5a = generate_unique_id cfg5b :=
  corrected_c5_amended cfg5a cfg5b (by decide)

/-! ## C3 — which values feed the hash (display names, not ids) -/

/-- C3 counterexample: in a concrete session whose directory reports
tenant `"Acme"` with service-assigned id `"t1"` and application
`"Sensors"` with id `"a1"`, the committed entry's hashed tuple carries
the display names `"Acme"` and `"Sensors"` in the tenant and application
positions, not the ids `"t1"` and `"a1"` (which end up in `tenant_id` /
`application_id`). -/
theorem corrected_c3_cex :
    stA.tenant_id = "t1" ∧ stA.app_id = "a1" ∧
    (stepConfigureMqtt envA [] stA (some mA)).1 =
      .createEntry DEFAULT_NAME dataA defaultOptions ∧
    uidFields dataA =
      ["srv", "1234", "Acme", "Sensors", "mq", "1883", "homeassistant",
       "cs"] ∧
    dataA.tenant ≠ stA.tenant_id ∧ dataA.application ≠ stA.app_id := by
  refine ⟨by decide, by decide, ?_, by decide, by decide, by decide⟩
  decide

/-- C3 amended: the fingerprint is computed over the ordered eight-field
tuple, but its tenant and application components are the display names
under which tenant and application were selected; the service-assigned
identifiers are stored separately (`tenant_id` on the flow instance,
`application_id` in the configuration) and do not feed the hash. -/
theorem corrected_c3_amended :
    (∀ (env : Env) (recs : List Record) (st : FlowState)
       (n i : String) (apps : List (String × String)),
       st.tenants_list = [(n, i)] → env.apps i = .ok apps → apps ≠ [] →
       stepSelectTenant env recs st none =
         stepSelectApplication env recs
           { st with
               inp := { st.inp with tenant := n },
               tenant_id := i,
               apps_list := apps } none)
    ∧ (∀ (env : Env) (recs : List Record) (st : FlowState) (n i : String),
       st.apps_list = [(n, i)] →
       stepSelectApplication env recs st none =
         .ok (stepConfigureMqtt env recs
           { st with
               inp := { st.inp with application := n, application_id := i },
               app_id := i } none))
    ∧ (∀ c : Configuration,
       uidString c = c.api_server ++ (toString c.api_port ++ (c.tenant ++
         (c.application ++ (c.mqtt_server ++ (toString c.mqtt_port ++
           (c.mqtt_disc ++ c.mqtt_cs_pfx))))))) := by
  refine ⟨?_, ?_, uidString_eq⟩
  · intro env recs st n i apps hl ha hne
    have hempty : apps.isEmpty = false := by
      cases apps with
      | nil => exact absurd rfl hne
      | cons a l => rfl
    simp [stepSelectTenant, hl, ha, hempty]
  · intro env recs st n i hl
    simp [stepSelectApplication, hl]

/-- Witness for the amended C3 at the concrete `envA` session. -/
theorem corrected_c3_amended_witness :
    stepSelectTenant envA [] { tenants_list := [("Acme", "t1")] } none =
      stepSelectApplication envA []
        { tenants_list := [("Acme", "t1")],
          inp := { tenant := "Acme" }, tenant_id := "t1",
          apps_list := [("Sensors", "a1")] } none
    ∧ uidString dataA =
        dataA.api_server ++ (toString dataA.api_port ++ (dataA.tenant ++
          (dataA.application ++ (dataA.mqtt_server ++
            (toString dataA.mqtt_port ++
              (dataA.mqtt_disc ++ dataA.mqtt_cs_pfx)))))) :=
  ⟨corrected_c3_amended.1 envA [] { tenants_list := [("Acme", "t1")] }
      "Acme" "t1" [("Sensors", "a1")] rfl rfl (by decide),
   corrected_c3_amended.2.2 dataA⟩

/-! ## C1 — duplicate fingerprint aborts the provisioning flow -/

/-- C1: at the broker-configuration step, when the fingerprint computed
over the accumulated input matches an already-stored record, the flow
returns the distinct `CONF_CHIRP_SERVER_RESERVED` abort (not a field
error), the record store is unchanged (so the existing record is
unmodified and nothing new is written), and no broker-connectivity call
is made (the check precedes any connectivity validation). -/
theorem confirmed_c1_duplicate_abort
    (env : Env) (records : List Record) (st : FlowState) (m : MqttInput)
    (h : records.any
        (fun r => r.unique_id == generate_unique_id (mergeMqtt st.inp m)) =
      true) :
    stepConfigureMqtt env records st (some m) =
      (.abort CONF_CHIRP_SERVER_RESERVED,
       { st with inp := mergeMqtt st.inp m }, records, []) := by
  simp only [stepConfigureMqtt]
  rw [if_pos h]

/-- A stored record carrying exactly the fingerprint that the concrete
session `stA`/`mA` will compute. -/
def recDup : Record :=
  { unique_id := generate_unique_id (mergeMqtt stA.inp mA),
    data := dataA, options := defaultOptions }

/-- Witness for C1: with `recDup` already stored, the concrete
submission aborts, leaves the store unchanged and makes no connectivity
call. -/
theorem confirmed_c1_witness :
    stepConfigureMqtt envA [recDup] stA (some mA) =
      (.abort CONF_CHIRP_SERVER_RESERVED,
       { stA with inp := mergeMqtt stA.inp mA }, [recDup], []) :=
  confirmed_c1_duplicate_abort envA [recDup] stA mA
    (by simp [List.any, recDup])

/-! ## C6 — singleton auto-advance -/

/-- C6: a singleton tenant result set (with a singleton application set
behind it) and a singleton application result set are selected
automatically and the flow advances to the broker-configuration form
without presenting the corresponding selection form; result sets of two
or more present the choices and wait for an explicit selection. -/
theorem confirmed_c6_singleton_auto_advance :
    (∀ (env : Env) (recs : List Record) (st : FlowState)
       (n i an ai : String),
       st.tenants_list = [(n, i)] → env.apps i = .ok [(an, ai)] →
       stepSelectTenant env recs st none =
         .ok (.formConfigureMqtt DEFAULT_MQTT_INPUT [],
           { st with
               inp := { st.inp with
                          tenant := n, application := an,
                          application_id := ai },
               tenant_id := i,
               apps_list := [(an, ai)],
               app_id := ai },
           recs, []))
    ∧ (∀ (env : Env) (recs : List Record) (st : FlowState) (n i : String),
       st.apps_list = [(n, i)] →
       stepSelectApplication env recs st none =
         .ok (.formConfigureMqtt DEFAULT_MQTT_INPUT [],
           { st with
               inp := { st.inp with application := n, application_id := i },
               app_id := i },
           recs, []))
    ∧ (∀ (env : Env) (recs : List Record) (st : FlowState),
       2 ≤ st.tenants_list.length →
       stepSelectTenant env recs st none =
         .ok (.formSelectTenant (st.tenants_list.map Prod.fst) [], st, recs,
           []))
    ∧ (∀ (env : Env) (recs : List Record) (st : FlowState),
       2 ≤ st.apps_list.length →
       stepSelectApplication env recs st none =
         .ok (.formSelectApplication (st.apps_list.map Prod.fst) [], st,
           recs, [])) := by
  refine ⟨?_, ?_, ?_, ?_⟩
  · intro env recs st n i an ai hl ha
    simp [stepSelectTenant, stepSelectApplication, stepConfigureMqtt, hl, ha]
  · intro env recs st n i hl
    simp [stepSelectApplication, stepConfigureMqtt, hl]
  · intro env recs st hlen
    rcases hl : st.tenants_list with _ | ⟨a, _ | ⟨b, l⟩⟩
    · rw [hl] at hlen
      simp at hlen
    · rw [hl] at hlen
      simp at hlen
    · simp [stepSelectTenant, hl]
  · intro env recs st hlen
    rcases hl : st.apps_list with _ | ⟨a, _ | ⟨b, l⟩⟩
    · rw [hl] at hlen
      simp at hlen
    · rw [hl] at hlen
      simp at hlen
    · simp [stepSelectApplication, hl]

/-- Witness for C6 at concrete singleton and two-element result sets. -/
theorem confirmed_c6_witness :
    stepSelectTenant envA [] { tenants_list := [("Acme", "t1")] } none =
      .ok (.formConfigureMqtt DEFAULT_MQTT_INPUT [],
        { tenants_list := [("Acme", "t1")],
          inp := { tenant := "Acme", application := "Sensors",
                   application_id := "a1" },
          tenant_id := "t1",
          apps_list := [("Sensors", "a1")],
          app_id := "a1" },
        [], [])
    ∧ stepSelectApplication envA []
        { apps_list := [("Sensors", "a1")] } none =
      .ok (.formConfigureMqtt DEFAULT_MQTT_INPUT [],
        { apps_list := [("Sensors", "a1")],
          inp := { application := "Sensors", application_id := "a1" },
          app_id := "a1" },
        [], [])
    ∧ stepSelectTenant envA []
        { tenants_list := [("A", "1"), ("B", "2")] } none =
      .ok (.formSelectTenant ["A", "B"] [],
        { tenants_list := [("A", "1"), ("B", "2")] }, [], [])
    ∧ stepSelectApplication envA []
        { apps_list := [("X", "x1"), ("Y", "y1")] } none =
      .ok (.formSelectApplication ["X", "Y"] [],
        { apps_list := [("X", "x1"), ("Y", "y1")] }, [], []) :=
  ⟨confirmed_c6_singleton_auto_advance.1 envA []
      { tenants_list := [("Acme", "t1")] } "Acme" "t1" "Sensors" "a1" rfl
      rfl,
   confirmed_c6_singleton_auto_advance.2.1 envA []
      { apps_list := [("Sensors", "a1")] } "Sensors" "a1" rfl,
   confirmed_c6_singleton_auto_advance.2.2.1 envA []
      { tenants_list := [("A", "1"), ("B", "2")] } (by decide),
   confirmed_c6_singleton_auto_advance.2.2.2 envA []
      { apps_list := [("X", "x1"), ("Y", "y1")] } (by decide)⟩

/-! ## Reconfiguration fixtures -/

/-- A stored entry used by the reconfiguration claims. -/
def entryR : Record :=
  { unique_id := "uid0",
    data := { api_server := "srv", api_port := 1234, tenant := "Acme",
              application := "Sensors", application_id := "a1",
              mqtt_server := "oldhost", mqtt_port := 1883,
              mqtt_user := "mu", mqtt_pwd := "mp", mqtt_disc := "d",
              mqtt_cs_pfx := "p" },
    options := defaultOptions }

/-- A reconfiguration submission changing the broker host. -/
def uDiff : ReconfigInput :=
  { mqtt_server := "newhost", mqtt_port := 1883, mqtt_user := "mu",
    mqtt_pwd := "mp", mqtt_disc := "d", mqtt_cs_pfx := "p",
    start_delay := 1, restore_age := 2, debug_payload := true,
    log_level := "debug", online_per_device := 3, expire_after := true }

/-- A reconfiguration submission whose six broker fields are identical
to `entryR`'s stored data, changing only the options. -/
def uSame : ReconfigInput :=
  { uDiff with mqtt_server := "oldhost" }

/-- Environment whose reconfiguration connectivity test fails. -/
def envReconfigFail : Env :=
  { envA with reconfigCheck := fun _ _ => .error "down" }

/-- Environment whose tenant listing raises. -/
def envDirFail : Env := { envA with tenants := .error "down" }

/-- Environment whose tenant listing succeeds but is empty. -/
def envEmpty : Env := { envA with tenants := .ok [] }

/-- Environment with two tenants whose application listing raises. -/
def envBoom : Env :=
  { envA with
      tenants := .ok [("A", "1"), ("B", "2")],
      apps := fun _ => .error "boom" }

/-- Environment whose MQTT connectivity check raises. -/
def envMqttFail : Env := { envA with mqttCheck := fun _ => .error "mqtt" }

/-! ## C7 — reconfiguration revalidates iff a broker field changed -/

/-- C7: the options flow's connectivity validation runs if and only if at
least one of the six broker fields of the submission differs from the
stored entry (`mqttChanged` is false exactly when all six agree); when
all six agree no external call is made and the submitted options are
still saved. -/
theorem confirmed_c7_reconfig_validation_iff
    (env : Env) (e : Record) (u : ReconfigInput) :
    (mqttChanged u e.data = false ↔
      (u.mqtt_server = e.data.mqtt_server ∧ u.mqtt_port = e.data.mqtt_port ∧
       u.mqtt_user = e.data.mqtt_user ∧ u.mqtt_pwd = e.data.mqtt_pwd ∧
       u.mqtt_disc = e.data.mqtt_disc ∧ u.mqtt_cs_pfx = e.data.mqtt_cs_pfx))
    ∧ (mqttChanged u e.data = false →
        stepOptionsInit env e (some u) =
          (.createEntry "" (optionsOf u), { e with options := optionsOf u },
           []))
    ∧ (mqttChanged u e.data = true →
        (stepOptionsInit env e (some u)).2.2 = [.reconfigConnectivity]) := by
  refine ⟨?_, ?_, ?_⟩
  · simp [mqttChanged, and_assoc]
  · intro h
    simp [stepOptionsInit, h]
  · intro h
    rcases hc : env.reconfigCheck e.data (mergeReconfig e.data u) with _ | _
    all_goals simp [stepOptionsInit, h, hc]

/-- Witness for C7: a submission identical in all six broker fields makes
no external call and saves the options; one differing in the broker host
invokes the connectivity validator. -/
theorem confirmed_c7_witness :
    stepOptionsInit envA entryR (some uSame) =
      (.createEntry "" (optionsOf uSame),
       { entryR with options := optionsOf uSame }, [])
    ∧ (stepOptionsInit envA entryR (some uDiff)).2.2 =
        [.reconfigConnectivity] :=
  ⟨(confirmed_c7_reconfig_validation_iff envA entryR uSame).2.1 (by decide),
   (confirmed_c7_reconfig_validation_iff envA entryR uDiff).2.2 (by decide)⟩

/-! ## C8 — reconfiguration is all-or-nothing -/

/-- C8: when a broker field changed and the connectivity validation
fails, the options flow persists nothing — the stored entry (data and
options) is returned unchanged — and re-presents the form with a
`mqtt_conn_failed` error on the broker-host field. -/
theorem confirmed_c8_reconfig_all_or_nothing
    (env : Env) (e : Record) (u : ReconfigInput) (err : String)
    (h : mqttChanged u e.data = true)
    (hc : env.reconfigCheck e.data (mergeReconfig e.data u) = .error err) :
    stepOptionsInit env e (some u) =
      (.form [(.mqtt_server, CONF_ERROR_MQTT_CONN_FAILED)], e,
       [.reconfigConnectivity]) := by
  simp [stepOptionsInit, h, hc]

/-- Witness for C8 at the concrete failing environment. -/
theorem confirmed_c8_witness :
    stepOptionsInit envReconfigFail entryR (some uDiff) =
      (.form [(.mqtt_server, CONF_ERROR_MQTT_CONN_FAILED)], entryR,
       [.reconfigConnectivity]) :=
  confirmed_c8_reconfig_all_or_nothing envReconfigFail entryR uDiff "down"
    (by decide) rfl

/-! ## C2 — reconfiguration and the fingerprint fields -/

/-- C2 counterexample: a successful reconfiguration changes the broker
host — one of the eight fingerprint-contributing fields — so the stored
record's hashed tuple differs before and after the update. -/
theorem corrected_c2_cex :
    (stepOptionsInit envA entryR (some uDiff)).1 =
      .createEntry "" (optionsOf uDiff) ∧
    ((stepOptionsInit envA entryR (some uDiff)).2.1).data.mqtt_server =
      "newhost" ∧
    entryR.data.mqtt_server = "oldhost" ∧
    uidFields ((stepOptionsInit envA entryR (some uDiff)).2.1.data) ≠
      uidFields entryR.data := by
  refine ⟨by decide, by decide, by decide, by decide⟩

/-- C2 amended: reconfiguration preserves the stored unique id and four
of the eight fingerprint-contributing fields (directory host, directory
port, tenant, application), but a successful submission may change the
other four (broker host, broker port, discovery prefix, vendor prefix);
no fingerprint check is performed by the options flow, so the
no-two-records-share-a-fingerprint invariant is not enforced by this
operation. -/
theorem corrected_c2_amended (env : Env) (e : Record) (u : ReconfigInput) :
    ((stepOptionsInit env e (some u)).2.1).unique_id = e.unique_id ∧
    ((stepOptionsInit env e (some u)).2.1).data.api_server =
      e.data.api_server ∧
    ((stepOptionsInit env e (some u)).2.1).data.api_port = e.data.api_port ∧
    ((stepOptionsInit env e (some u)).2.1).data.tenant = e.data.tenant ∧
    ((stepOptionsInit env e (some u)).2.1).data.application =
      e.data.application := by
  rcases h : mqttChanged u e.data with _ | _
  · simp [stepOptionsInit, h]
  · rcases hc : env.reconfigCheck e.data (mergeReconfig e.data u) with _ | _
    all_goals
      simp only [stepOptionsInit, h, if_true]
      rw [hc]
      simp [mergeReconfig]

/-! ## C9 — failure propagation at step boundaries -/

/-- C9 counterexample: with two tenants listed, submitting an explicit
tenant choice while the application-listing call raises makes
`async_step_select_tenant` propagate the raw failure out of the step
(`Except.error`) instead of converting it to a named field error. -/
theorem corrected_c9_cex :
    stepSelectTenant envBoom [] { tenants_list := [("A", "1"), ("B", "2")] }
      (some "B") = .error "boom" := rfl

/-- C9 amended: failures of the tenant listing at endpoint entry, of the
broker connectivity check at broker configuration, and of the
reconfiguration connectivity test are each caught at their step boundary
and converted to a named field error; but a failure of the
application-listing call during tenant selection is not caught at the
tenant-selection boundary: on an explicit tenant submission it
propagates uncaught, and when tenant selection runs nested inside the
endpoint-entry submission it is caught at the endpoint-entry boundary
and surfaced there as a directory-connection-failed field error. -/
theorem corrected_c9_amended :
    (∀ (env : Env) (recs : List Record) (st : FlowState) (u : UserInput)
       (e : String),
       env.tenants = .error e →
       stepUser env recs st (some u) =
         (.formUser u [(.api_server, CONF_ERROR_CHIRP_CONN_FAILED)], st,
          recs, []))
    ∧ (∀ (env : Env) (recs : List Record) (st : FlowState) (m : MqttInput)
       (e : String),
       env.mqttCheck (mergeMqtt st.inp m) = .error e →
       recs.any (fun r =>
         r.unique_id == generate_unique_id (mergeMqtt st.inp m)) = false →
       stepConfigureMqtt env recs st (some m) =
         (.formConfigureMqtt m [(.mqtt_server, CONF_ERROR_MQTT_CONN_FAILED)],
          { st with inp := mergeMqtt st.inp m }, recs, [.mqttConnectivity]))
    ∧ (∀ (env : Env) (e : Record) (u : ReconfigInput) (err : String),
       mqttChanged u e.data = true →
       env.reconfigCheck e.data (mergeReconfig e.data u) = .error err →
       (stepOptionsInit env e (some u)).1 =
         .form [(.mqtt_server, CONF_ERROR_MQTT_CONN_FAILED)])
    ∧ (∀ (env : Env) (recs : List Record) (st : FlowState) (n i e : String),
       2 ≤ st.tenants_list.length → st.tenants_list.lookup n = some i →
       env.apps i = .error e →
       stepSelectTenant env recs st (some n) = .error e)
    ∧ (∀ (env : Env) (recs : List Record) (st : FlowState) (u : UserInput)
       (n i e : String),
       env.tenants = .ok [(n, i)] → env.apps i = .error e →
       stepUser env recs st (some u) =
         (.formUser u [(.api_server, CONF_ERROR_CHIRP_CONN_FAILED)],
          { st with tenants_list := [(n, i)], inp := inputOfUser u }, recs,
          [])) := by
  refine ⟨?_, ?_, ?_, ?_, ?_⟩
  · intro env recs st u e h
    simp [stepUser, h]
  · intro env recs st m e hm hrec
    simp [stepConfigureMqtt, hrec, hm]
  · intro env e u err h hc
    simp [stepOptionsInit, h, hc]
  · intro env recs st n i e hlen hlook ha
    rcases hl : st.tenants_list with _ | ⟨a, _ | ⟨b, l⟩⟩
    · rw [hl] at hlen
      simp at hlen
    · rw [hl] at hlen
      simp at hlen
    · rw [hl] at hlook
      simp [stepSelectTenant, hl, hlook, ha]
  · intro env recs st u n i e ht ha
    simp [stepUser, stepSelectTenant, ht, ha]

/-- Witness for the amended C9 at concrete environments. -/
theorem corrected_c9_amended_witness :
    stepUser envDirFail [] {} (some uA) =
      (.formUser uA [(.api_server, CONF_ERROR_CHIRP_CONN_FAILED)], {}, [],
       [])
    ∧ stepConfigureMqtt envMqttFail [] stA (some mA) =
        (.formConfigureMqtt mA
           [(.mqtt_server, CONF_ERROR_MQTT_CONN_FAILED)],
         { stA with inp := mergeMqtt stA.inp mA }, [], [.mqttConnectivity])
    ∧ (stepOptionsInit envReconfigFail entryR (some uDiff)).1 =
        .form [(.mqtt_server, CONF_ERROR_MQTT_CONN_FAILED)]
    ∧ stepSelectTenant envBoom []
        { tenants_list := [("A", "1"), ("B", "2")] } (some "A") =
        .error "boom"
    ∧ stepUser { envA with apps := fun _ => .error "boom" } [] {}
        (some uA) =
        (.formUser uA [(.api_server, CONF_ERROR_CHIRP_CONN_FAILED)],
         { tenants_list := [("Acme", "t1")], inp := inputOfUser uA }, [],
         []) :=
  ⟨corrected_c9_amended.1 envDirFail [] {} uA "down" rfl,
   corrected_c9_amended.2.1 envMqttFail [] stA mA "mqtt" rfl rfl,
   corrected_c9_amended.2.2.1 envReconfigFail entryR uDiff "down"
     (by decide) rfl,
   corrected_c9_amended.2.2.2.1 envBoom []
     { tenants_list := [("A", "1"), ("B", "2")] } "A" "1" "boom"
     (by decide) (by decide) rfl,
   corrected_c9_amended.2.2.2.2 { envA with apps := fun _ => .error "boom" }
     [] {} uA "Acme" "t1" "boom" rfl rfl⟩

/-! ## C10 — the endpoint-entry step -/

/-- C10: at the endpoint-entry step, a submission for which the tenant
listing raises re-presents the form with a directory-connection-failed
error and the submitted values as the form defaults; a successful but
empty tenant listing re-presents with a no-tenants error; and only a
submission yielding a non-empty tenant set advances into tenant
selection, whose outcome then becomes the submission's outcome. -/
theorem confirmed_c10_endpoint_entry :
    (∀ (env : Env) (recs : List Record) (st : FlowState) (u : UserInput)
       (e : String),
       env.tenants = .error e →
       stepUser env recs st (some u) =
         (.formUser u [(.api_server, CONF_ERROR_CHIRP_CONN_FAILED)], st,
          recs, []))
    ∧ (∀ (env : Env) (recs : List Record) (st : FlowState) (u : UserInput),
       env.tenants = .ok [] →
       stepUser env recs st (some u) =
         (.formUser u [(.api_server, CONF_CHIRP_NO_TENANTS)],
          { st with tenants_list := [] }, recs, []))
    ∧ (∀ (env : Env) (recs : List Record) (st : FlowState) (u : UserInput)
       (ts : List (String × String)) (out : StepOut),
       env.tenants = .ok ts → ts ≠ [] →
       stepSelectTenant env recs
         { st with tenants_list := ts, inp := inputOfUser u } none =
         .ok out →
       stepUser env recs st (some u) = out) := by
  refine ⟨?_, ?_, ?_⟩
  · intro env recs st u e h
    simp [stepUser, h]
  · intro env recs st u h
    simp [stepUser, h]
  · intro env recs st u ts out ht hne hstep
    have hempty : ts.isEmpty = false := by
      cases ts with
      | nil => exact absurd rfl hne
      | cons a l => rfl
    simp [stepUser, ht, hempty, hstep]

/-- Witness for C10 at concrete environments: a raising listing, an
empty listing, and a two-tenant listing advancing to the tenant form. -/
theorem confirmed_c10_witness :
    stepUser envDirFail [] { tenant_id := "x" } (some uA) =
      (.formUser uA [(.api_server, CONF_ERROR_CHIRP_CONN_FAILED)],
       { tenant_id := "x" }, [], [])
    ∧ stepUser envEmpty [] {} (some uA) =
        (.formUser uA [(.api_server, CONF_CHIRP_NO_TENANTS)],
         { tenants_list := [] }, [], [])
    ∧ stepUser { envA with tenants := .ok [("A", "1"), ("B", "2")] } [] {}
        (some uA) =
        (.formSelectTenant ["A", "B"] [],
         { tenants_list := [("A", "1"), ("B", "2")],
           inp := inputOfUser uA }, [], []) :=
  ⟨confirmed_c10_endpoint_entry.1 envDirFail [] { tenant_id := "x" } uA
      "down" rfl,
   confirmed_c10_endpoint_entry.2.1 envEmpty [] {} uA rfl,
   confirmed_c10_endpoint_entry.2.2 { envA with
       tenants := .ok [("A", "1"), ("B", "2")] } [] {} uA
     [("A", "1"), ("B", "2")]
     (.formSelectTenant ["A", "B"] [],
      { tenants_list := [("A", "1"), ("B", "2")], inp := inputOfUser uA },
      [], [])
     rfl (by decide) rfl⟩

end Chirp
